import Mathlib

/-!
Verification of the daemon orchestrator in `cmd/ipfs/daemon.go`.

Shallow embedding conventions:
* A Go `error` value carried on a channel is `GoError := Option String`
  (`none` is the nil error).
* Every call into an external collaborator (repo open, config load,
  multiaddr parsing, listener binding, option lookup, node build, HTTP
  fetch, base58 decode, the eventual return value of `corehttp.Serve`)
  is a field of `Env` holding that call's result; the embedded functions
  read these fields in exactly the order the Go code makes the calls.
* A completion channel (`<-chan error`) is modelled by the finite list of
  values it delivers before it is closed; `none : Option (List GoError)`
  models a nil channel.
* The nondeterministic interleaving produced by the goroutines inside
  `merge` is modelled by the relation `Interleaves`; the sequence of
  values the orchestrator actually reads from the merged channel is the
  environment field `mergedTrace`, constrained in theorems to be a valid
  interleaving of the input channel histories.
-/

/-- A Go error value: `none` is the nil error. -/
abbrev GoError := Option String

/-- The slice of the repo config read by `daemon.go` (`cfg.Addresses.API`,
`cfg.Addresses.Gateway`, `cfg.Gateway.Writable`, `cfg.Gateway.BlackList`,
`cfg.Gateway.WhiteList`, `cfg.Gateway.RootRedirect`, `cfg.Mounts.IPFS`,
`cfg.Mounts.IPNS`). -/
structure Config where
  addressesAPI : String
  addressesGateway : String
  gatewayWritable : Bool
  gatewayBlackList : String
  gatewayWhiteList : String
  gatewayRootRedirect : String
  mountsIPFS : String
  mountsIPNS : String
deriving DecidableEq

/-- `routingOptionSupernodeKwd = "supernode"` from the constant block. -/
def routingOptionSupernodeKwd : String := "supernode"

/-- Results of all external calls made during one run of `daemonFunc` and
its helpers.  `Except String α` models a Go `(α, error)` pair; `Bool × Bool`
and `String × Bool` model the `(value, found)` part of `req.Option(...)`. -/
structure Env where
  unencryptedOpt : Except String (Bool × Bool)
  initOpt : Except String (Bool × Bool)
  fileExists : Bool
  initWithDefaultsRes : Option String
  fsrepoOpenRes : Except String Unit
  getConfigRes : Except String Config
  routingOpt : Except String (String × Bool)
  supernodeServersRes : Except String (List String)
  buildRes : Except String Unit
  apiAddrParse : Except String Unit
  apiListen : Except String Unit
  unrestrictedOpt : Except String (Bool × Bool)
  webUIKeys : List String
  constructNodeRes : Except String Unit
  apiServeRes : GoError
  gwAddrParse : Except String Unit
  writableOpt : Except String (Bool × Bool)
  gwListen : Except String Unit
  blackListFetch : Except String (List String)
  whiteListFetch : Except String (List String)
  decode : String → String
  gwServeRes : GoError
  mountOpt : Except String (Bool × Bool)
  ipfsMountOpt : Except String (String × Bool)
  ipnsMountOpt : Except String (String × Bool)
  mountRes : Option String
  mergedTrace : List GoError

/-- The `corehttp.GatewayConfig` literal built by the launchers:
`writable` is the `Writable` field, `whiteList`/`blackList` are the key
sets (`none` models a nil `key.KeySet`). -/
structure GatewayConfig where
  writable : Bool
  whiteList : Option (List String)
  blackList : Option (List String)
deriving DecidableEq

/-- Result of `serveHTTPApi` / `serveHTTPGateway`: the immediate error and
the completion channel (`err, errc` in the source), plus observations used
by the verification: whether the background serving goroutine was started,
the `GatewayConfig` literal that was constructed (if any), and — for the
gateway — the resolved `writable` mode the launcher reports. -/
structure ServeResult where
  err : Option String
  errc : Option (List GoError)
  serveStarted : Bool
  gwConfig : Option GatewayConfig
  resolvedWritable : Option Bool
deriving DecidableEq

/-- A `return fmt.Errorf(...), nil` exit of a launcher: immediate error,
nil channel, no goroutine started. -/
def serveFail (e : String) : ServeResult :=
  { err := some e, errc := none, serveStarted := false,
    gwConfig := none, resolvedWritable := none }

/-- The value part of `v, _, _ := req.Option(k).Bool()` when both `found`
and `err` are ignored: on error the Go zero value `false` is used. -/
def optBoolValue : Except String (Bool × Bool) → Bool
  | Except.ok p => p.1
  | Except.error _ => false

/-- `loadKeySetFromURL`'s scanner loop (daemon.go lines 429-435): decode
each line; an empty decode aborts with `invalid key in set`, otherwise
the key is added to the set.  The key set is modelled as the list of
decoded keys in scan order. -/
def scanKeys (decode : String → String) : List String → Except String (List String)
  | [] => Except.ok []
  | line :: rest =>
    if decode line = "" then Except.error "invalid key in set"
    else Except.map (fun ks => decode line :: ks) (scanKeys decode rest)

/-- `loadKeySetFromURL` (daemon.go lines 421-437): `fetch` is the result of
`http.Get` presented as the list of scanned lines, `decode` is the external
`key.B58KeyDecode`. -/
def loadKeySetFromURL (fetch : Except String (List String))
    (decode : String → String) : Except String (List String) :=
  match fetch with
  | Except.error e => Except.error e
  | Except.ok lines => scanKeys decode lines

/-- `serveHTTPApi` (daemon.go lines 261-325).  The branch structure and
order of external calls mirror the source; on full success the completion
channel history is `[apiServeRes]`: the goroutine sends the single result
of `corehttp.Serve` and then closes the channel.  The source's
`ConstructNode` failure message really says `serveHTTPGateway:` (line 316);
this is kept.  The API gateway handler is built with `Writable: true`
(line 295) and, unless `--unrestricted-api` is set, a whitelist of webui
keys (lines 285-292). -/
def serveHTTPApi (env : Env) : ServeResult :=
  match env.getConfigRes with
  | Except.error e => serveFail ("serveHTTPApi: GetConfig() failed: " ++ e)
  | Except.ok cfg =>
    match env.apiAddrParse with
    | Except.error e =>
      serveFail ("serveHTTPApi: invalid API address: " ++ cfg.addressesAPI ++ " (err: " ++ e ++ ")")
    | Except.ok _ =>
      match env.apiListen with
      | Except.error e => serveFail ("serveHTTPApi: manet.Listen failed: " ++ e)
      | Except.ok _ =>
        match env.unrestrictedOpt with
        | Except.error e => serveFail ("serveHTTPApi: Option(unrestricted-api) failed: " ++ e)
        | Except.ok p =>
          let whitelist : Option (List String) := if p.1 then none else some env.webUIKeys
          let apiGw : GatewayConfig :=
            { writable := true, whiteList := whitelist, blackList := none }
          match env.constructNodeRes with
          | Except.error e =>
            { serveFail ("serveHTTPGateway: ConstructNode() failed: " ++ e) with
                gwConfig := some apiGw }
          | Except.ok _ =>
            { err := none, errc := some [env.apiServeRes], serveStarted := true,
              gwConfig := some apiGw, resolvedWritable := none }

/-- `serveHTTPGateway` (daemon.go lines 341-419).  The `writable` mode is
the flag value if the flag was found, otherwise `cfg.Gateway.Writable`
(lines 352-358); it selects which status line is printed.  The
`GatewayConfig` literal at lines 392-395 sets only `BlackList` and
`WhiteList`, so its `Writable` field is the Go zero value `false`.  A
key-set load failure returns that error with a nil channel. -/
def serveHTTPGateway (env : Env) : ServeResult :=
  match env.getConfigRes with
  | Except.error e => serveFail ("serveHTTPGateway: GetConfig() failed: " ++ e)
  | Except.ok cfg =>
    match env.gwAddrParse with
    | Except.error e =>
      serveFail ("serveHTTPGateway: invalid gateway address: " ++ cfg.addressesGateway ++ " (err: " ++ e ++ ")")
    | Except.ok _ =>
      match env.writableOpt with
      | Except.error e => serveFail ("serveHTTPGateway: req.Option(writable) failed: " ++ e)
      | Except.ok p =>
        let writable := if p.2 then p.1 else cfg.gatewayWritable
        match env.gwListen with
        | Except.error e => serveFail ("serveHTTPGateway: manet.Listen failed: " ++ e)
        | Except.ok _ =>
          match (if cfg.gatewayBlackList = "" then Except.ok none
                 else Except.map some (loadKeySetFromURL env.blackListFetch env.decode)) with
          | Except.error e => serveFail e
          | Except.ok blacklist =>
            match (if cfg.gatewayWhiteList = "" then Except.ok none
                   else Except.map some (loadKeySetFromURL env.whiteListFetch env.decode)) with
            | Except.error e => serveFail e
            | Except.ok whitelist =>
              let gwCfg : GatewayConfig :=
                { writable := false, whiteList := whitelist, blackList := blacklist }
              match env.constructNodeRes with
              | Except.error e =>
                { serveFail ("serveHTTPGateway: ConstructNode() failed: " ++ e) with
                    gwConfig := some gwCfg, resolvedWritable := some writable }
              | Except.ok _ =>
                { err := none, errc := some [env.gwServeRes], serveStarted := true,
                  gwConfig := some gwCfg, resolvedWritable := some writable }

/-- `mountFuse` (daemon.go lines 440-474): resolve mount directories from
flags or config, construct the node, call `commands.Mount`. -/
def mountFuse (env : Env) : Option String :=
  match env.getConfigRes with
  | Except.error e => some ("mountFuse: GetConfig() failed: " ++ e)
  | Except.ok cfg =>
    match env.ipfsMountOpt with
    | Except.error e => some ("mountFuse: req.Option(mount-ipfs) failed: " ++ e)
    | Except.ok pf =>
      let _fsdir := if pf.2 then pf.1 else cfg.mountsIPFS
      match env.ipnsMountOpt with
      | Except.error e => some ("mountFuse: req.Option(mount-ipns) failed: " ++ e)
      | Except.ok pn =>
        let _nsdir := if pn.2 then pn.1 else cfg.mountsIPNS
        match env.constructNodeRes with
        | Except.error e => some ("mountFuse: ConstructNode() failed: " ++ e)
        | Except.ok _ => env.mountRes

/-- The orchestrator's blocking read loop (daemon.go lines 252-257):
`for err := range merge(...) { if err != nil { SetError(err); return } }`.
Nil errors are consumed and ignored; the first non-nil error is reported;
if the merged channel closes after only nil values, no error is set. -/
def shutdownLoop : List GoError → Option String
  | [] => none
  | none :: rest => shutdownLoop rest
  | some e :: _ => some e

/-- Observable outcome of one `daemonFunc` run: the error passed to
`res.SetError` (if any), whether the repo lock was acquired, how many
times the orchestrator itself called `repo.Close()`, how many times the
deferred `node.Close()` ran, the final value of the global
`conn.EncryptConnections`, which launchers were invoked, and the
completion channel histories handed to `merge`. -/
structure DaemonResult where
  resErr : Option String
  repoAcquired : Bool
  repoDirectClose : Nat
  nodeClose : Nat
  encryptConnections : Bool
  apiInvoked : Bool
  gatewayInvoked : Bool
  mountInvoked : Bool
  apiErrc : Option (List GoError)
  gwErrc : Option (List GoError)
deriving DecidableEq

/-- The all-initial daemon outcome. -/
def DaemonResult.base : DaemonResult :=
  { resErr := none, repoAcquired := false, repoDirectClose := 0, nodeClose := 0,
    encryptConnections := true, apiInvoked := false, gatewayInvoked := false,
    mountInvoked := false, apiErrc := none, gwErrc := none }

/-- `req.InvocContext().ConstructNode = func() { return node, nil }`
(daemon.go lines 215-217): after the node is built, `ConstructNode`
succeeds for every later caller. -/
def withConstructNode (env : Env) : Env :=
  { env with constructNodeRes := Except.ok () }

/-- daemon.go lines 237-257: the mount step (`--mount` flag, `mountFuse`)
followed by the blocking read loop over the merged completion channels. -/
def daemonMountStep (env : Env) (r : DaemonResult) : DaemonResult :=
  match env.mountOpt with
  | Except.error e => { r with resErr := some e }
  | Except.ok p =>
    if p.1 then
      let r1 := { r with mountInvoked := true }
      match mountFuse env with
      | some e => { r1 with resErr := some e }
      | none => { r1 with resErr := shutdownLoop env.mergedTrace }
    else { r with resErr := shutdownLoop env.mergedTrace }

/-- daemon.go lines 219-257: the body that runs after the deferred
`node.Close` is registered — launch the API (always), the gateway (only
if `cfg.Addresses.Gateway` is non-empty), then the mount step and the
read loop.  An immediate launcher error sets the response error and
returns. -/
def daemonServices (env : Env) (r : DaemonResult) (cfg : Config) : DaemonResult :=
  let envN := withConstructNode env
  let api := serveHTTPApi envN
  let r1 := { r with apiInvoked := true, apiErrc := api.errc }
  match api.err with
  | some e => { r1 with resErr := some e }
  | none =>
    if cfg.addressesGateway.length > 0 then
      let gw := serveHTTPGateway envN
      let r2 := { r1 with gatewayInvoked := true, gwErrc := gw.errc }
      match gw.err with
      | some e => { r2 with resErr := some e }
      | none => daemonMountStep envN r2
    else daemonMountStep envN r1

/-- `daemonFunc` (daemon.go lines 110-258).  The branch structure mirrors
the source: transport-encryption flag, init flag, `fsrepo.Open` (the lock
acquisition), `GetConfig`, routing option, the supernode-routing setup
(the only failure path with an explicit `repo.Close()`, line 181),
`nb.Build`, then the deferred `node.Close` around the service phase.  Note
which failure paths do NOT close the repo: `GetConfig` error, routing
option error and — decisively — `nb.Build` error (lines 194-199). -/
def daemonFunc (env : Env) : DaemonResult :=
  let r0 := { DaemonResult.base with
                encryptConnections := !(optBoolValue env.unencryptedOpt) }
  match env.initOpt with
  | Except.error e => { r0 with resErr := some e }
  | Except.ok p =>
    match (if p.1 && !env.fileExists then env.initWithDefaultsRes else none) with
    | some e => { r0 with resErr := some e }
    | none =>
      match env.fsrepoOpenRes with
      | Except.error e => { r0 with resErr := some e }
      | Except.ok _ =>
        let r1 := { r0 with repoAcquired := true }
        match env.getConfigRes with
        | Except.error e => { r1 with resErr := some e }
        | Except.ok cfg =>
          match env.routingOpt with
          | Except.error e => { r1 with resErr := some e }
          | Except.ok rp =>
            match (if rp.1 = routingOptionSupernodeKwd then
                     match env.supernodeServersRes with
                     | Except.error e => some e
                     | Except.ok _ => none
                   else none) with
            | some e => { r1 with resErr := some e, repoDirectClose := r1.repoDirectClose + 1 }
            | none =>
              match env.buildRes with
              | Except.error e => { r1 with resErr := some e }
              | Except.ok _ =>
                let body := daemonServices env r1 cfg
                { body with nodeClose := body.nodeClose + 1 }

/-- `merge`'s worker-spawning loop (daemon.go lines 490-495): one
forwarding worker per input channel, skipping nil channels. -/
def mergeWorkers : List (Option (List GoError)) → List (List GoError)
  | [] => []
  | none :: cs => mergeWorkers cs
  | some c :: cs => c :: mergeWorkers cs

/-- `Interleaves ls out` holds when `out` is one possible order in which
independent forwarding workers, each draining one list of `ls`, can
deliver their values to a shared output; the output ends (the channel is
closed) only once every worker's list is exhausted — the `done` case
demands all inputs empty, mirroring `wg.Wait(); close(out)`
(daemon.go lines 499-502). -/
inductive Interleaves {α : Type} : List (List α) → List α → Prop where
  | done : ∀ ls : List (List α), (∀ l ∈ ls, l = []) → Interleaves ls []
  | take : ∀ (ls : List (List α)) (i : Nat) (a : α) (tl : List α) (out : List α),
      ls.get? i = some (a :: tl) → Interleaves (ls.set i tl) out →
      Interleaves ls (a :: out)

/-- The possible delivered histories of `merge cs` (daemon.go lines
478-504): any interleaving of the non-nil input channels' histories,
followed by the single close. -/
def mergeOutputs (cs : List (Option (List GoError))) (out : List GoError) : Prop :=
  Interleaves (mergeWorkers cs) out

/-- The spec-side transformation for the nil-safety claim: the same list
of channels with the nil entries removed. -/
def removeNils : List (Option (List GoError)) → List (Option (List GoError))
  | [] => []
  | none :: cs => removeNils cs
  | some c :: cs => some c :: removeNils cs

/-- A configuration on which every step of the orchestrator succeeds. -/
def happyCfg : Config :=
  { addressesAPI := "/ip4/127.0.0.1/tcp/5001"
    addressesGateway := "/ip4/127.0.0.1/tcp/8080"
    gatewayWritable := false
    gatewayBlackList := ""
    gatewayWhiteList := ""
    gatewayRootRedirect := ""
    mountsIPFS := "/ipfs"
    mountsIPNS := "/ipns" }

/-- An environment in which every external call succeeds, both serving
loops eventually return nil, and the merged trace is the two nil results. -/
def happyEnv : Env :=
  { unencryptedOpt := Except.ok (false, false)
    initOpt := Except.ok (false, false)
    fileExists := true
    initWithDefaultsRes := none
    fsrepoOpenRes := Except.ok ()
    getConfigRes := Except.ok happyCfg
    routingOpt := Except.ok ("", false)
    supernodeServersRes := Except.ok []
    buildRes := Except.ok ()
    apiAddrParse := Except.ok ()
    apiListen := Except.ok ()
    unrestrictedOpt := Except.ok (false, false)
    webUIKeys := ["webuikey"]
    constructNodeRes := Except.ok ()
    apiServeRes := none
    gwAddrParse := Except.ok ()
    writableOpt := Except.ok (false, false)
    gwListen := Except.ok ()
    blackListFetch := Except.ok []
    whiteListFetch := Except.ok []
    decode := fun s => s
    gwServeRes := none
    mountOpt := Except.ok (false, false)
    ipfsMountOpt := Except.ok ("", false)
    ipnsMountOpt := Except.ok ("", false)
    mountRes := none
    mergedTrace := [none, none] }

/-- The run in which node construction (`nb.Build`) fails after the repo
lock was acquired. -/
def envBuildFail : Env :=
  { happyEnv with buildRes := Except.error "node construction failed" }

/-- The run in which the supernode-routing setup fails after the repo lock
was acquired (the one failure path with an explicit `repo.Close()`). -/
def envSupernodeFail : Env :=
  { happyEnv with
      routingOpt := Except.ok ("supernode", true)
      supernodeServersRes := Except.error "bad server addrs" }

/-- A run in which binding the control-API listener fails. -/
def envApiBindFail : Env :=
  { happyEnv with apiListen := Except.error "bind: address already in use" }

/-- A run in which the gateway serving loop eventually fails with `boom`
while the API serving loop exits cleanly; the merged trace reads the
clean exit first. -/
def envGwError : Env :=
  { happyEnv with
      gwServeRes := some "boom"
      mergedTrace := [none, some "boom"] }

/-- A run with a configured gateway deny-list whose fetched lines all
decode to the empty key. -/
def envBlackListBad : Env :=
  { happyEnv with
      getConfigRes := Except.ok { happyCfg with gatewayBlackList := "http://deny.example/list" }
      blackListFetch := Except.ok ["line1"]
      decode := fun _ => "" }

theorem mergeWorkers_eq_filterMap (cs : List (Option (List GoError))) :
    mergeWorkers cs = cs.filterMap id := by
  induction cs with
  | nil => rfl
  | cons c cs ih => cases c <;> simp [mergeWorkers, ih]

theorem mergeWorkers_removeNils (cs : List (Option (List GoError))) :
    mergeWorkers (removeNils cs) = mergeWorkers cs := by
  induction cs with
  | nil => rfl
  | cons c cs ih => cases c <;> simp [mergeWorkers, removeNils, ih]

theorem ofList_nil {α : Type} : Multiset.ofList ([] : List α) = 0 := rfl

theorem ofList_cons {α : Type} (a : α) (l : List α) :
    Multiset.ofList (a :: l) = a ::ₘ Multiset.ofList l := rfl

theorem multisetSum_set {α : Type} (i : Nat) (ls : List (List α)) (a : α)
    (tl : List α) (h : ls.get? i = some (a :: tl)) :
    (ls.map Multiset.ofList).sum
      = a ::ₘ ((ls.set i tl).map Multiset.ofList).sum := by
  induction ls generalizing i with
  | nil => simp [List.get?] at h
  | cons hd rest ih =>
    cases i with
    | zero =>
      simp only [List.get?] at h
      injection h with h
      subst h
      simp only [List.set, List.map_cons, List.sum_cons, ofList_cons,
        Multiset.cons_add]
    | succ n =>
      simp only [List.get?] at h
      simp only [List.set, List.map_cons, List.sum_cons, ih n h,
        Multiset.add_cons]

theorem interleaves_multiset {α : Type} {ls : List (List α)} {out : List α}
    (h : Interleaves ls out) :
    Multiset.ofList out = (ls.map Multiset.ofList).sum := by
  induction h with
  | done ls hall =>
    symm
    rw [ofList_nil]
    refine List.sum_eq_zero ?_
    intro x hx
    simp only [List.mem_map] at hx
    obtain ⟨l, hl, rfl⟩ := hx
    rw [hall l hl, ofList_nil]
  | take ls i a tl out hget hrec ih =>
    rw [multisetSum_set i ls a tl hget, ← ih, ← ofList_cons]

theorem interleaves_all_nil {α : Type} {out : List α}
    (h : Interleaves ([] : List (List α)) out) : out = [] := by
  cases h with
  | done _ _ => rfl
  | take ls i a tl out hget _ => simp [List.get?] at hget

theorem shutdownLoop_eq_findSome (t : List GoError) :
    shutdownLoop t = t.findSome? id := by
  induction t with
  | nil => rfl
  | cons h t ih => cases h <;> simp [shutdownLoop, List.findSome?_cons, ih]

/-- C2: every possible delivered history of `merge` over a finite family
of input channels carries exactly the union of the multisets of values of
the non-nil inputs (no value is dropped, none is invented); with zero
non-nil inputs the output closes immediately with no values; and the
output history does not end (the channel is not closed) while some
non-nil input still holds an undelivered value. -/
theorem mergeDeliversExactlyUnion (cs : List (Option (List GoError)))
    (out : List GoError) (h : mergeOutputs cs out) :
    Multiset.ofList out = ((cs.filterMap id).map Multiset.ofList).sum
    ∧ (cs.filterMap id = [] → out = [])
    ∧ ((∃ l ∈ cs.filterMap id, l ≠ []) → out ≠ []) := by
  have hw := mergeWorkers_eq_filterMap cs
  unfold mergeOutputs at h
  refine ⟨?_, ?_, ?_⟩
  · rw [← hw]
    exact interleaves_multiset h
  · intro hnil
    rw [hw, hnil] at h
    exact interleaves_all_nil h
  · rintro ⟨l, hl, hne⟩
    rw [← hw] at hl
    cases h with
    | done _ hall => exact absurd (hall l hl) hne
    | take _ _ _ _ _ _ _ => simp

/-- Witness for the fan-in completeness theorem: three inputs (one of
them nil), delivered history `[some "a", some "b", none]`. -/
theorem mergeDeliversExactlyUnionWitness :
    Multiset.ofList ([some "a", some "b", none] : List GoError)
      = ((([some [some "a", none], none, some [some "b"]] :
            List (Option (List GoError))).filterMap id).map Multiset.ofList).sum
    ∧ (([some [some "a", none], none, some [some "b"]] :
          List (Option (List GoError))).filterMap id = []
        → ([some "a", some "b", none] : List GoError) = [])
    ∧ ((∃ l ∈ ([some [some "a", none], none, some [some "b"]] :
          List (Option (List GoError))).filterMap id, l ≠ [])
        → ([some "a", some "b", none] : List GoError) ≠ []) := by
  have h : Interleaves (mergeWorkers [some [some "a", none], none, some [some "b"]])
      [some "a", some "b", none] := by
    refine Interleaves.take _ 0 _ _ _ rfl ?_
    refine Interleaves.take _ 1 _ _ _ rfl ?_
    refine Interleaves.take _ 0 _ _ _ rfl ?_
    exact Interleaves.done _ (by decide)
  exact mergeDeliversExactlyUnion _ _ h

/-- C3: a `merge` call in which some inputs are nil has exactly the same
possible delivered histories as the call with those nil inputs removed
from the argument list: nil inputs neither block closure nor contribute
values. -/
theorem mergeIgnoresNilInputs (cs : List (Option (List GoError))) (out : List GoError) :
    mergeOutputs cs out ↔ mergeOutputs (removeNils cs) out := by
  unfold mergeOutputs
  rw [mergeWorkers_removeNils]

/-- Witness for nil-safety: the single-value history of a two-input call
with one nil input is also a history of the one-input call. -/
theorem mergeIgnoresNilInputsWitness :
    mergeOutputs (removeNils [none, some [some "z"]]) [some "z"] := by
  refine (mergeIgnoresNilInputs [none, some [some "z"]] [some "z"]).mp ?_
  exact Interleaves.take _ 0 _ _ _ rfl (Interleaves.done _ (by decide))

/-- C9: the orchestrator's blocking read loop consumes and ignores nil
completion values (a clean service exit does not by itself shut the
daemon down), stops with an error exactly at the first non-nil value it
reads, and exits with no error if the merged channel closes having
delivered only nil values; in general its result is the first non-nil
value of the trace. -/
theorem nilCompletionsIgnored :
    (∀ rest : List GoError, shutdownLoop (none :: rest) = shutdownLoop rest)
    ∧ (∀ (e : String) (rest : List GoError), shutdownLoop (some e :: rest) = some e)
    ∧ (∀ trace : List GoError, (∀ x ∈ trace, x = none) → shutdownLoop trace = none)
    ∧ (∀ trace : List GoError, shutdownLoop trace = trace.findSome? id) := by
  refine ⟨fun rest => rfl, fun e rest => rfl, ?_, shutdownLoop_eq_findSome⟩
  intro trace h
  induction trace with
  | nil => rfl
  | cons x rest ih =>
    have hx := h x (by simp)
    subst hx
    exact ih fun y hy => h y (List.mem_cons_of_mem _ hy)

/-- Witness: a trace of three clean exits produces no daemon error. -/
theorem nilCompletionsIgnoredWitness :
    shutdownLoop [none, none, none] = none :=
  nilCompletionsIgnored.2.2.1 [none, none, none] (by simp)

theorem serveHTTPApi_spec (env : Env) :
    ((serveHTTPApi env).err = none ∧ (serveHTTPApi env).errc = some [env.apiServeRes]
      ∧ (serveHTTPApi env).serveStarted = true)
    ∨ ((∃ e, (serveHTTPApi env).err = some e) ∧ (serveHTTPApi env).errc = none
      ∧ (serveHTTPApi env).serveStarted = false) := by
  rcases hc : env.getConfigRes with e | cfg
  · exact Or.inr (by simp [serveHTTPApi, hc, serveFail])
  rcases ha : env.apiAddrParse with e | u
  · exact Or.inr (by simp [serveHTTPApi, hc, ha, serveFail])
  rcases hl : env.apiListen with e | u2
  · exact Or.inr (by simp [serveHTTPApi, hc, ha, hl, serveFail])
  rcases hu : env.unrestrictedOpt with e | p
  · exact Or.inr (by simp [serveHTTPApi, hc, ha, hl, hu, serveFail])
  rcases hn : env.constructNodeRes with e | u3
  · exact Or.inr (by simp [serveHTTPApi, hc, ha, hl, hu, hn, serveFail])
  · exact Or.inl (by simp [serveHTTPApi, hc, ha, hl, hu, hn])

theorem serveHTTPGateway_spec (env : Env) :
    ((serveHTTPGateway env).err = none ∧ (serveHTTPGateway env).errc = some [env.gwServeRes]
      ∧ (serveHTTPGateway env).serveStarted = true)
    ∨ ((∃ e, (serveHTTPGateway env).err = some e) ∧ (serveHTTPGateway env).errc = none
      ∧ (serveHTTPGateway env).serveStarted = false) := by
  rcases hc : env.getConfigRes with e | cfg
  · exact Or.inr (by simp [serveHTTPGateway, hc, serveFail])
  rcases ha : env.gwAddrParse with e | u
  · exact Or.inr (by simp [serveHTTPGateway, hc, ha, serveFail])
  rcases hw : env.writableOpt with e | p
  · exact Or.inr (by simp [serveHTTPGateway, hc, ha, hw, serveFail])
  rcases hl : env.gwListen with e | u2
  · exact Or.inr (by simp [serveHTTPGateway, hc, ha, hw, hl, serveFail])
  rcases hb : (if cfg.gatewayBlackList = "" then Except.ok none
               else Except.map some (loadKeySetFromURL env.blackListFetch env.decode)) with e | bl
  · exact Or.inr (by simp [serveHTTPGateway, hc, ha, hw, hl, hb, serveFail])
  rcases hwl : (if cfg.gatewayWhiteList = "" then Except.ok none
                else Except.map some (loadKeySetFromURL env.whiteListFetch env.decode)) with e | wl
  · exact Or.inr (by simp [serveHTTPGateway, hc, ha, hw, hl, hb, hwl, serveFail])
  rcases hn : env.constructNodeRes with e | u3
  · exact Or.inr (by simp [serveHTTPGateway, hc, ha, hw, hl, hb, hwl, hn, serveFail])
  · exact Or.inl (by simp [serveHTTPGateway, hc, ha, hw, hl, hb, hwl, hn])

/-- C4: when a launcher returns a nil immediate error, the completion
channel it returns delivers exactly one value — the eventual result of
the background `corehttp.Serve` loop, error or nil — and is closed right
after it: its whole delivered history is the one-element list of that
result. -/
theorem completionSignalSingleValue (env : Env) :
    ((serveHTTPApi env).err = none → (serveHTTPApi env).errc = some [env.apiServeRes])
    ∧ ((serveHTTPGateway env).err = none → (serveHTTPGateway env).errc = some [env.gwServeRes]) := by
  constructor
  · intro h
    rcases serveHTTPApi_spec env with ⟨_, h2, _⟩ | ⟨⟨e, he⟩, _, _⟩
    · exact h2
    · rw [h] at he
      simp at he
  · intro h
    rcases serveHTTPGateway_spec env with ⟨_, h2, _⟩ | ⟨⟨e, he⟩, _, _⟩
    · exact h2
    · rw [h] at he
      simp at he

/-- Witness: on the all-success environment both launchers return a
channel whose whole history is the single nil serve result. -/
theorem completionSignalSingleValueWitness :
    (serveHTTPApi happyEnv).errc = some [none]
    ∧ (serveHTTPGateway happyEnv).errc = some [none] :=
  ⟨(completionSignalSingleValue happyEnv).1 rfl,
   (completionSignalSingleValue happyEnv).2 rfl⟩

/-- C5: a setup failure inside a launcher yields a non-nil immediate
error paired with a nil completion channel and no background serving
goroutine; conversely a nil immediate error comes with a non-nil
completion channel. -/
theorem setupFailureImmediateError (env : Env) :
    (((serveHTTPApi env).err ≠ none → (serveHTTPApi env).errc = none
        ∧ (serveHTTPApi env).serveStarted = false)
      ∧ ((serveHTTPApi env).err = none → (serveHTTPApi env).errc ≠ none))
    ∧ (((serveHTTPGateway env).err ≠ none → (serveHTTPGateway env).errc = none
        ∧ (serveHTTPGateway env).serveStarted = false)
      ∧ ((serveHTTPGateway env).err = none → (serveHTTPGateway env).errc ≠ none)) := by
  constructor
  · constructor
    · intro h
      rcases serveHTTPApi_spec env with ⟨h1, _, _⟩ | ⟨_, h2, h3⟩
      · exact absurd h1 h
      · exact ⟨h2, h3⟩
    · intro h
      rcases serveHTTPApi_spec env with ⟨_, h2, _⟩ | ⟨⟨e, he⟩, _, _⟩
      · rw [h2]
        simp
      · rw [h] at he
        simp at he
  · constructor
    · intro h
      rcases serveHTTPGateway_spec env with ⟨h1, _, _⟩ | ⟨_, h2, h3⟩
      · exact absurd h1 h
      · exact ⟨h2, h3⟩
    · intro h
      rcases serveHTTPGateway_spec env with ⟨_, h2, _⟩ | ⟨⟨e, he⟩, _, _⟩
      · rw [h2]
        simp
      · rw [h] at he
        simp at he

/-- Witness: a failed API listener bind gives a nil channel and no
goroutine; the successful gateway launch gives a non-nil channel. -/
theorem setupFailureImmediateErrorWitness :
    ((serveHTTPApi envApiBindFail).errc = none
      ∧ (serveHTTPApi envApiBindFail).serveStarted = false)
    ∧ (serveHTTPGateway happyEnv).errc ≠ none :=
  ⟨(setupFailureImmediateError envApiBindFail).1.1 (by decide),
   (setupFailureImmediateError happyEnv).2.2 rfl⟩

/-- C10: the control-API launcher builds its gateway handler with
`Writable` unconditionally `true`; the `--writable` flag — whose resolved
value (the flag value if present, otherwise the persisted
`cfg.Gateway.Writable`) selects the public gateway's reported writable
mode — has no effect whatsoever on `serveHTTPApi`'s behaviour. -/
theorem apiGatewayWritableUnconditional :
    (∀ (env : Env) (g : GatewayConfig),
        (serveHTTPApi env).gwConfig = some g → g.writable = true)
    ∧ (∀ (env : Env) (w : Except String (Bool × Bool)),
        serveHTTPApi { env with writableOpt := w } = serveHTTPApi env)
    ∧ (∀ (env : Env) (cfg : Config) (p : Bool × Bool),
        env.getConfigRes = Except.ok cfg → env.gwAddrParse = Except.ok () →
        env.writableOpt = Except.ok p → env.gwListen = Except.ok () →
        cfg.gatewayBlackList = "" → cfg.gatewayWhiteList = "" →
        (serveHTTPGateway env).resolvedWritable
          = some (if p.2 then p.1 else cfg.gatewayWritable)) := by
  refine ⟨?_, ?_, ?_⟩
  · intro env g hg
    rcases hc : env.getConfigRes with e | cfg
    · simp [serveHTTPApi, hc, serveFail] at hg
    rcases ha : env.apiAddrParse with e | u
    · simp [serveHTTPApi, hc, ha, serveFail] at hg
    rcases hl : env.apiListen with e | u2
    · simp [serveHTTPApi, hc, ha, hl, serveFail] at hg
    rcases hu : env.unrestrictedOpt with e | p
    · simp [serveHTTPApi, hc, ha, hl, hu, serveFail] at hg
    rcases hn : env.constructNodeRes with e | u3
    · simp only [serveHTTPApi, hc, ha, hl, hu, hn, serveFail,
        Option.some.injEq] at hg
      subst hg
      rfl
    · simp only [serveHTTPApi, hc, ha, hl, hu, hn,
        Option.some.injEq] at hg
      subst hg
      rfl
  · intro env w
    cases env
    rfl
  · intro env cfg p h1 h2 h3 h4 h5 h6
    rcases hn : env.constructNodeRes with e | u
    · simp [serveHTTPGateway, h1, h2, h3, h4, h5, h6, hn, serveFail]
    · simp [serveHTTPGateway, h1, h2, h3, h4, h5, h6, hn]

/-- Witness: on the all-success environment the API handler's config is
the writable-true literal, and the gateway's resolved writable mode is
`false` (flag absent, config value false). -/
theorem apiGatewayWritableUnconditionalWitness :
    ({ writable := true, whiteList := some ["webuikey"], blackList := none } :
        GatewayConfig).writable = true
    ∧ (serveHTTPGateway happyEnv).resolvedWritable = some false :=
  ⟨apiGatewayWritableUnconditional.1 happyEnv
      { writable := true, whiteList := some ["webuikey"], blackList := none } rfl,
   apiGatewayWritableUnconditional.2.2 happyEnv happyCfg (false, false)
      rfl rfl rfl rfl rfl rfl⟩

/-- C1 (claim refuted by the code): in the run where the repo lock is
acquired and node construction (`nb.Build`) then fails, `daemonFunc`
returns with the build error set but performs no `repo.Close` at all —
neither directly nor via a node teardown (no node exists) — so the lock
is leaked, contradicting the ownership rule the code itself states in the
comment at daemon.go line 181.  By contrast, the supernode-routing
failure path (the one the comment annotates) does release the lock
exactly once. -/
theorem buildFailureLeaksRepoLock :
    ((daemonFunc envBuildFail).repoAcquired = true
      ∧ (daemonFunc envBuildFail).resErr = some "node construction failed"
      ∧ (daemonFunc envBuildFail).repoDirectClose = 0
      ∧ (daemonFunc envBuildFail).nodeClose = 0)
    ∧ ((daemonFunc envSupernodeFail).repoDirectClose = 1
      ∧ (daemonFunc envSupernodeFail).nodeClose = 0) :=
  ⟨⟨rfl, rfl, rfl, rfl⟩, rfl, rfl⟩

/-- C6: with the node built and both services launched, the first error
value read from the merged completion channel becomes the process-level
error and the deferred `node.Close` teardown runs exactly once —
whichever of the two services emitted the error. -/
theorem firstErrorShutsDown (env : Env) (cfg : Config) (e : String)
    (hInit : env.initOpt = Except.ok (false, false))
    (hRepo : env.fsrepoOpenRes = Except.ok ())
    (hCfg : env.getConfigRes = Except.ok cfg)
    (hRouting : env.routingOpt = Except.ok ("", false))
    (hBuild : env.buildRes = Except.ok ())
    (hApiAddr : env.apiAddrParse = Except.ok ())
    (hApiLis : env.apiListen = Except.ok ())
    (hUnres : env.unrestrictedOpt = Except.ok (false, false))
    (hGwConf : cfg.addressesGateway.length > 0)
    (hGwAddr : env.gwAddrParse = Except.ok ())
    (hWrit : env.writableOpt = Except.ok (false, false))
    (hGwLis : env.gwListen = Except.ok ())
    (hBlack : cfg.gatewayBlackList = "")
    (hWhite : cfg.gatewayWhiteList = "")
    (hMount : env.mountOpt = Except.ok (false, false))
    (_hTrace : mergeOutputs [some [env.apiServeRes], some [env.gwServeRes]] env.mergedTrace)
    (hFirst : env.mergedTrace.findSome? id = some e) :
    (daemonFunc env).resErr = some e ∧ (daemonFunc env).nodeClose = 1 := by
  have hloop : shutdownLoop env.mergedTrace = some e := by
    rw [shutdownLoop_eq_findSome]
    exact hFirst
  constructor <;>
    simp [daemonFunc, daemonServices, daemonMountStep, serveHTTPApi,
      serveHTTPGateway, withConstructNode, routingOptionSupernodeKwd,
      hInit, hRepo, hCfg, hRouting, hBuild, hApiAddr, hApiLis, hUnres,
      hGwConf, hGwAddr, hWrit, hGwLis, hBlack, hWhite, hMount, hloop,
      DaemonResult.base]

/-- Witness: the gateway's serving loop fails with `boom`, the API's
exits cleanly, the merged trace reads the clean exit first; the daemon
reports `boom` and the deferred teardown runs once. -/
theorem firstErrorShutsDownWitness :
    (daemonFunc envGwError).resErr = some "boom"
    ∧ (daemonFunc envGwError).nodeClose = 1 := by
  refine firstErrorShutsDown envGwError happyCfg "boom"
    rfl rfl rfl rfl rfl rfl rfl rfl (by decide) rfl rfl rfl rfl rfl rfl ?_ rfl
  show Interleaves
    (mergeWorkers [some [envGwError.apiServeRes], some [envGwError.gwServeRes]])
    envGwError.mergedTrace
  exact Interleaves.take _ 0 _ _ _ rfl
    (Interleaves.take _ 1 _ _ _ rfl (Interleaves.done _ (by decide)))

/-- C7: if, after the node is built, the control-API launcher returns an
immediate error, the orchestrator returns at once with that error: the
gateway launcher and the fuse mount are never invoked, the orchestrator
makes no direct `repo.Close` call, and the single deferred `node.Close`
(the node now owns the lock) runs exactly once. -/
theorem apiFailureShortCircuits (env : Env) (cfg : Config) (e : String)
    (hInit : env.initOpt = Except.ok (false, false))
    (hRepo : env.fsrepoOpenRes = Except.ok ())
    (hCfg : env.getConfigRes = Except.ok cfg)
    (hRouting : env.routingOpt = Except.ok ("", false))
    (hBuild : env.buildRes = Except.ok ())
    (hApi : (serveHTTPApi (withConstructNode env)).err = some e) :
    (daemonFunc env).resErr = some e
    ∧ (daemonFunc env).gatewayInvoked = false
    ∧ (daemonFunc env).mountInvoked = false
    ∧ (daemonFunc env).nodeClose = 1
    ∧ (daemonFunc env).repoDirectClose = 0 := by
  refine ⟨?_, ?_, ?_, ?_, ?_⟩ <;>
    simp [daemonFunc, daemonServices, routingOptionSupernodeKwd,
      hInit, hRepo, hCfg, hRouting, hBuild, hApi, DaemonResult.base]

/-- Witness: the API listener bind fails on an otherwise healthy run. -/
theorem apiFailureShortCircuitsWitness :
    (daemonFunc envApiBindFail).resErr
        = some "serveHTTPApi: manet.Listen failed: bind: address already in use"
    ∧ (daemonFunc envApiBindFail).gatewayInvoked = false
    ∧ (daemonFunc envApiBindFail).mountInvoked = false
    ∧ (daemonFunc envApiBindFail).nodeClose = 1
    ∧ (daemonFunc envApiBindFail).repoDirectClose = 0 :=
  apiFailureShortCircuits envApiBindFail happyCfg
    "serveHTTPApi: manet.Listen failed: bind: address already in use"
    rfl rfl rfl rfl rfl rfl

/-- C8: key-set loading is all-or-nothing: if every fetched line decodes
to a non-empty key the scanner returns the set of all decoded keys, and
if any line decodes to the empty key it returns the `invalid key in set`
error, never a partial set; and a gateway whose configured deny-list
fails to load aborts its launch with that error — a nil completion
channel, no serving goroutine, no constructed gateway handler. -/
theorem keySetLoadAllOrNothing :
    (∀ (decode : String → String) (lines : List String),
        ((∀ l ∈ lines, decode l ≠ "") → scanKeys decode lines = Except.ok (lines.map decode))
      ∧ ((∃ l ∈ lines, decode l = "") → scanKeys decode lines = Except.error "invalid key in set"))
    ∧ (∀ (env : Env) (cfg : Config) (p : Bool × Bool) (e : String),
        env.getConfigRes = Except.ok cfg →
        env.gwAddrParse = Except.ok () →
        env.writableOpt = Except.ok p →
        env.gwListen = Except.ok () →
        cfg.gatewayBlackList ≠ "" →
        loadKeySetFromURL env.blackListFetch env.decode = Except.error e →
        serveHTTPGateway env = serveFail e) := by
  constructor
  · intro decode lines
    induction lines with
    | nil =>
      refine ⟨fun _ => rfl, ?_⟩
      rintro ⟨l, hl, _⟩
      simp at hl
    | cons x rest ih =>
      constructor
      · intro h
        have hx : decode x ≠ "" := h x (by simp)
        simp only [scanKeys, if_neg hx, ih.1 (fun l hl => h l (by simp [hl])),
          Except.map, List.map_cons]
      · rintro ⟨l, hl, hempty⟩
        rcases List.mem_cons.mp hl with rfl | hl2
        · simp [scanKeys, hempty]
        · by_cases hx : decode x = ""
          · simp [scanKeys, hx]
          · simp [scanKeys, hx, ih.2 ⟨l, hl2, hempty⟩, Except.map]
  · intro env cfg p e h1 h2 h3 h4 h5 h6
    simp [serveHTTPGateway, h1, h2, h3, h4, h5, h6, Except.map]

/-- Witness: an identity decode loads both keys; the bad deny-list run
aborts the gateway launch with the scanner's error. -/
theorem keySetLoadAllOrNothingWitness :
    scanKeys (fun s => s) ["k1", "k2"] = Except.ok ["k1", "k2"]
    ∧ serveHTTPGateway envBlackListBad = serveFail "invalid key in set" :=
  ⟨(keySetLoadAllOrNothing.1 (fun s => s) ["k1", "k2"]).1 (by decide),
   keySetLoadAllOrNothing.2 envBlackListBad
     { happyCfg with gatewayBlackList := "http://deny.example/list" }
     (false, false) "invalid key in set" rfl rfl rfl rfl (by decide) rfl⟩
